import Mathlib

/-!
Verification of the real-time session core of the AI-controlled-browser
frontend: the ICE candidate batcher and signaling state machine of the three
WebRTC components (`BrowserScreenPanel`, `BrowserScreenStream`,
`useVoiceWebRTC`), the audio playback scheduler, the reconnecting voice
WebSocket channel, and the streaming query proxy.  Each definition is a
shallow embedding of the corresponding TypeScript function; theorems settle
the spec's claims about them.
-/

/-! ## Candidate batcher (BrowserScreenPanel, BrowserScreenStream, useVoiceWebRTC) -/

/-- A locally discovered ICE candidate (`RTCIceCandidateInit`, the shape
produced by `event.candidate.toJSON()`). -/
structure IceCandidate where
  candidate : String
  sdpMid : Option String
  sdpMLineIndex : Option Nat
deriving DecidableEq, Repr

/-- Body of the POST to `/api/screen-stream/ice` built by
`BrowserScreenPanel.flushCandidates` and `BrowserScreenStream.flushCandidates`:
`{ session_id: sessionIdRef.current, candidate: candidates[0] }` — note the
singular `candidate` field. -/
structure ScreenIceRequest where
  session_id : String
  candidate : IceCandidate
deriving DecidableEq, Repr

/-- `flushCandidates` of `BrowserScreenPanel` (src/unnamed/part_007, lines
47–56): `const candidates = pendingCandidatesRef.current.splice(0)` empties
the pending array unconditionally; then
`if (!candidates.length || !sessionIdRef.current) return;`; otherwise it posts
one request carrying only `candidates[0]`.  Returns the pending array after
the call and the request sent, if any. -/
def flushCandidatesPanel (pending : List IceCandidate) (sessionId : Option String) :
    List IceCandidate × Option ScreenIceRequest :=
  let candidates := pending
  let remaining : List IceCandidate := []
  match candidates, sessionId with
  | [], _ => (remaining, none)
  | _ :: _, none => (remaining, none)
  | c :: _, some sid => (remaining, some { session_id := sid, candidate := c })

/-- `flushCandidates` of `BrowserScreenStream` (src/unnamed/part_008, lines
52–61): identical to the panel version — splice the whole batch, bail out on
an empty batch or a missing session id, post only `candidates[0]`. -/
def flushCandidatesStream (pending : List IceCandidate) (sessionId : Option String) :
    List IceCandidate × Option ScreenIceRequest :=
  let candidates := pending
  let remaining : List IceCandidate := []
  match candidates, sessionId with
  | [], _ => (remaining, none)
  | _ :: _, none => (remaining, none)
  | c :: _, some sid => (remaining, some { session_id := sid, candidate := c })

/-- One entry of the `candidates` array sent by `useVoiceWebRTC.flushCandidates`:
`{ candidate, sdpMid: candidate.sdpMid ?? "", sdpMLineIndex: candidate.sdpMLineIndex ?? 0 }`. -/
structure VoiceIcePayload where
  candidate : String
  sdpMid : String
  sdpMLineIndex : Nat
deriving DecidableEq, Repr

/-- Body of the POST to `/api/webrtc-experimental/ice` built by
`useVoiceWebRTC.flushCandidates`: the pc id plus the whole spliced batch, mapped. -/
structure VoiceIceRequest where
  pcId : String
  candidates : List VoiceIcePayload
deriving DecidableEq, Repr

/-- The mapping applied to each spliced candidate in `useVoiceWebRTC.flushCandidates`. -/
def voiceIcePayload (c : IceCandidate) : VoiceIcePayload :=
  { candidate := c.candidate
    sdpMid := c.sdpMid.getD ""
    sdpMLineIndex := c.sdpMLineIndex.getD 0 }

/-- `flushCandidates` of `useVoiceWebRTC` (src/unnamed/part_009, lines 58–75):
splice the whole pending array, bail out on an empty batch or a missing pc id,
otherwise post one request carrying every spliced candidate, mapped, in order. -/
def flushCandidatesVoice (pending : List IceCandidate) (pcId : Option String) :
    List IceCandidate × Option VoiceIceRequest :=
  let candidates := pending
  let remaining : List IceCandidate := []
  match candidates, pcId with
  | [], _ => (remaining, none)
  | _ :: _, none => (remaining, none)
  | cs, some pid => (remaining, some { pcId := pid, candidates := cs.map voiceIcePayload })

/-- `pc.onicecandidate` (all three components): each discovered candidate is
pushed onto the end of the pending array; the debounce timer is cancelled and
restarted (array state only). -/
def pushCandidate (pending : List IceCandidate) (c : IceCandidate) : List IceCandidate :=
  pending ++ [c]

/-- The pending array after a sequence of discoveries within one debounce
window, in discovery order. -/
def pushAll (pending : List IceCandidate) (cs : List IceCandidate) : List IceCandidate :=
  cs.foldl pushCandidate pending

theorem pushAll_eq_append (pending cs : List IceCandidate) :
    pushAll pending cs = pending ++ cs := by
  induction cs generalizing pending with
  | nil => simp [pushAll]
  | cons c rest ih =>
      simpa [pushAll, pushCandidate, List.foldl_cons] using
        (ih (pending ++ [c])).trans (by simp)

/-- A concrete host candidate used in counterexamples. -/
def candA : IceCandidate :=
  { candidate := "candidate:1 1 UDP 2130706431 192.168.0.2 50000 typ host"
    sdpMid := some "0"
    sdpMLineIndex := some 0 }

/-- A concrete server-reflexive candidate used in counterexamples. -/
def candB : IceCandidate :=
  { candidate := "candidate:2 1 UDP 1694498815 203.0.113.5 50001 typ srflx"
    sdpMid := some "0"
    sdpMLineIndex := some 0 }

/-! ## Signaling session state (C3) -/

/-- The React connection state of all three components. -/
inductive ConnectionState
  | idle
  | connecting
  | connected
  | error
deriving DecidableEq, Repr

/-- `RTCPeerConnection.connectionState` values. -/
inductive RTCPeerConnectionState
  | new
  | connecting
  | connected
  | disconnected
  | failed
  | closed
deriving DecidableEq, Repr

/-- `RTCPeerConnection.iceConnectionState` values. -/
inductive RTCIceConnectionState
  | new
  | checking
  | connected
  | completed
  | failed
  | disconnected
  | closed
deriving DecidableEq, Repr

/-- `pc.onconnectionstatechange` registered in `BrowserScreenPanel.startConnection`
(src/unnamed/part_007, lines 120–127): sets state to `connected` when the
transport reports `connected`, to `error` (with a message) when it reports
`failed`, and otherwise leaves the React state unchanged.  Returns the new
state and the error message set, if any. -/
def panelConnectionStateChange (transport : RTCPeerConnectionState)
    (s : ConnectionState) : ConnectionState × Option String :=
  if transport = .connected then (.connected, none)
  else if transport = .failed then (.error, some "Connection failed")
  else (s, none)

/-- `pc.onconnectionstatechange` registered in `BrowserScreenStream.startConnection`
(src/unnamed/part_008, lines 157–164): identical to the panel handler. -/
def streamConnectionStateChange (transport : RTCPeerConnectionState)
    (s : ConnectionState) : ConnectionState × Option String :=
  if transport = .connected then (.connected, none)
  else if transport = .failed then (.error, some "Connection failed")
  else (s, none)

/-- `pc.oniceconnectionstatechange` registered in `useVoiceWebRTC.startConnection`
(src/unnamed/part_009): moves state to `error` on a `failed` or `closed`
transport report and otherwise leaves it unchanged; it never sets `connected`. -/
def voiceIceConnectionStateChange (transport : RTCIceConnectionState)
    (s : ConnectionState) : ConnectionState :=
  if transport = .failed ∨ transport = .closed then .error else s

/-- Outcome of the negotiation performed inside `useVoiceWebRTC.startConnection`:
the offer/answer exchange with `/api/webrtc-experimental/offer` and the event
stream setup either all succeed (yielding the `pc_id` from the answer) or the
`catch` is reached with an error message. -/
inductive NegotiationOutcome
  | success (pcId : String)
  | failure (message : String)
deriving DecidableEq, Repr

/-- The state in which `useVoiceWebRTC.startConnection` (src/unnamed/part_009,
lines 175–248) ends, as a function of the negotiation outcome alone: on the
success path the function's last statements are `setState("connected")` and
`setIsConnecting(false)` — run right after the answer is applied and the
event stream opened, with no transport connectivity report consulted; on the
failure path the `catch` ends with `setState("error")`.  Returns the final
state and the stored pc id. -/
def voiceStartFinalState : NegotiationOutcome → ConnectionState × Option String
  | .success pid => (.connected, some pid)
  | .failure _ => (.error, none)

/-! ## Theorems: candidate batcher claims -/

/-- C1 (counterexample): with two candidates batched in one debounce window and
a session id known, `BrowserScreenPanel.flushCandidates` sends a request whose
only candidate is the first one — the second discovered candidate is absent
from the flush, refuting "one flush request containing all of those
candidates". -/
theorem flushCandidatesPanel_drops_tail :
    (flushCandidatesPanel [candA, candB] (some "sess-1")).2 =
      some { session_id := "sess-1", candidate := candA } ∧
    candB ≠ candA := by
  exact ⟨rfl, by decide⟩

/-- C1 (amended): when the debounce timer fires on a non-empty batch with a
session id known, exactly one request is sent; `useVoiceWebRTC` sends the
whole batch in discovery order, while `BrowserScreenPanel` and
`BrowserScreenStream` send only the first candidate of the batch. -/
theorem flush_one_request_content (c : IceCandidate) (cs : List IceCandidate)
    (sid : String) :
    (flushCandidatesVoice (pushAll [] (c :: cs)) (some sid)).2 =
      some { pcId := sid, candidates := (c :: cs).map voiceIcePayload } ∧
    (flushCandidatesPanel (pushAll [] (c :: cs)) (some sid)).2 =
      some { session_id := sid, candidate := c } ∧
    (flushCandidatesStream (pushAll [] (c :: cs)) (some sid)).2 =
      some { session_id := sid, candidate := c } := by
  rw [pushAll_eq_append]
  exact ⟨rfl, rfl, rfl⟩

/-- C2 (counterexample): flushing a one-candidate batch while no session id is
known leaves the pending array empty — `splice(0)` ran before the session-id
check — refuting "the queued candidates remain in the batch". -/
theorem flush_without_session_drops :
    (flushCandidatesPanel [candA] none).1 = [] ∧
    (flushCandidatesStream [candA] none).1 = [] ∧
    (flushCandidatesVoice [candA] none).1 = [] ∧
    ([] : List IceCandidate) ≠ [candA] := by
  exact ⟨rfl, rfl, rfl, by decide⟩

/-- C2 (amended): a flush with no session id performs no network request, but
it does not leave the batch intact: the splice empties the pending array
first, so the queued candidates are dropped and a later flush of the (now
empty) batch cannot send them. -/
theorem flush_without_session_noop_clears (cs : List IceCandidate) :
    (flushCandidatesPanel cs none).2 = none ∧ (flushCandidatesPanel cs none).1 = [] ∧
    (flushCandidatesStream cs none).2 = none ∧ (flushCandidatesStream cs none).1 = [] ∧
    (flushCandidatesVoice cs none).2 = none ∧ (flushCandidatesVoice cs none).1 = [] := by
  refine ⟨?_, ?_, ?_, ?_, ?_, ?_⟩ <;> cases cs <;> rfl

/-! ## Theorems: connected-state claim -/

/-- C3 (counterexample): the success path of `useVoiceWebRTC.startConnection`
ends in state `connected` as a function of the negotiation outcome alone (no
transport connectivity report is an input of that path), and the voice
transport-state handler does not produce `connected` even when the transport
reports `connected` — so the voice hook's `connected` arises from answer
application, refuting the claim for that component. -/
theorem voiceStart_connected_on_answer :
    (voiceStartFinalState (.success "pc-1")).1 = ConnectionState.connected ∧
    voiceIceConnectionStateChange .connected .connecting = ConnectionState.connecting := by
  exact ⟨rfl, rfl⟩

/-- C3 (amended): in `BrowserScreenPanel` and `BrowserScreenStream` the state
becomes `connected` exactly when the transport reports `connected` (or was
already `connected` and the report is not `failed`); in `useVoiceWebRTC`,
`startConnection` ends `connected` whenever negotiation succeeds, without a
transport connectivity report, and its transport handler never sets
`connected`. -/
theorem connected_only_from_transport_or_voice_start
    (t : RTCPeerConnectionState) (ti : RTCIceConnectionState)
    (s : ConnectionState) (pid : String) :
    ((panelConnectionStateChange t s).1 = .connected ↔
      t = .connected ∨ (t ≠ .failed ∧ s = .connected)) ∧
    ((streamConnectionStateChange t s).1 = .connected ↔
      t = .connected ∨ (t ≠ .failed ∧ s = .connected)) ∧
    (voiceIceConnectionStateChange ti s = .connected ↔
      ti ≠ .failed ∧ ti ≠ .closed ∧ s = .connected) ∧
    (voiceStartFinalState (.success pid)).1 = .connected := by
  refine ⟨?_, ?_, ?_, rfl⟩
  · cases t <;> cases s <;> simp [panelConnectionStateChange]
  · cases t <;> cases s <;> simp [streamConnectionStateChange]
  · cases ti <;> cases s <;> simp [voiceIceConnectionStateChange]

/-! ## Audio playback scheduler (part_006: stopAllAudio, processAudioQueue) -/

/-- An audio chunk as queued by `playAudioChunk`, with its base64 payload
already decoded to bytes (the `atob` + `charCodeAt` loop of
`processAudioQueue`): PCM16 little-endian interleaved data. -/
structure AudioChunk where
  audioBytes : List Nat
  sampleRate : Nat
  numChannels : Nat
deriving DecidableEq, Repr

/-- `samplesPerChannel = audioData.length / (2 * chunk.numChannels)` — PCM16 is
two bytes per sample, interleaved across channels. -/
def samplesPerChannel (c : AudioChunk) : Nat :=
  c.audioBytes.length / (2 * c.numChannels)

/-- `audioBuffer.duration`: the buffer holds `samplesPerChannel` frames at
`sampleRate` frames per second, so its duration is their quotient (seconds,
exact rationals in place of the runtime's floats). -/
def chunkDuration (c : AudioChunk) : ℚ :=
  (samplesPerChannel c : ℚ) / (c.sampleRate : ℚ)

/-- The sample-decoding step of the drain loop: sample `i` of channel
`channel` is the little-endian signed 16-bit word at byte offset
`(i * numChannels + channel) * 2`, divided by 32768. -/
def decodedSample (c : AudioChunk) (channel i : Nat) : ℚ :=
  let byteIndex := (i * c.numChannels + channel) * 2
  let lo := c.audioBytes.getD byteIndex 0
  let hi := c.audioBytes.getD (byteIndex + 1) 0
  let word := lo + 256 * hi
  let int16 : ℤ := if word < 32768 then (word : ℤ) else (word : ℤ) - 65536
  (int16 : ℚ) / 32768

/-- The mutable refs of the playback scheduler in part_006:
`audioQueueRef`, `nextPlayTimeRef`, `activeAudioSourcesRef` (source nodes
stand in as numeric ids), `isPlayingAudioRef`, `isProcessingAudioQueueRef`;
`nextSourceId` supplies a fresh id per created source node. -/
structure SchedulerState where
  queue : List AudioChunk
  nextPlayTime : Option ℚ
  activeSources : List Nat
  isPlaying : Bool
  isProcessing : Bool
  nextSourceId : Nat
deriving DecidableEq, Repr

/-- `stopAllAudio` (part_006, lines 72–86): stop every active source, clear
the active set, clear `isPlaying`, clear the queue, clear the processing
guard and reset the cursor. -/
def stopAllAudio (s : SchedulerState) : SchedulerState :=
  { queue := []
    nextPlayTime := none
    activeSources := []
    isPlaying := false
    isProcessing := false
    nextSourceId := s.nextSourceId }

/-- The while-loop of `processAudioQueue`, with the queue passed alongside the
state it is shifted from: for each chunk, create a source node (a fresh id),
push it onto the active set, `source.start(currentTime)`, advance
`currentTime += duration`, store it in `nextPlayTimeRef`, and mark playback
active.  Returns the final state and the (start, duration) schedule in
order. -/
def drainLoop : ℚ → List AudioChunk → SchedulerState → SchedulerState × List (ℚ × ℚ)
  | _, [], st => (st, [])
  | t, c :: rest, st =>
      let d := chunkDuration c
      let st1 : SchedulerState :=
        { st with
            queue := rest
            activeSources := st.activeSources ++ [st.nextSourceId]
            nextSourceId := st.nextSourceId + 1
            nextPlayTime := some (t + d)
            isPlaying := true }
      let r := drainLoop (t + d) rest st1
      (r.1, (t, d) :: r.2)

/-- `processAudioQueue` (part_006, lines 89–192): return at once when the
non-reentrancy guard is set (the audio context, present whenever the scheduler
runs, is elided); otherwise set the guard, initialise the cursor to
`nextPlayTimeRef.current ?? currentTime` clamped up to `currentTime` (= `now`),
drain the whole queue back-to-back, and clear the guard.  Returns the final
state and the schedule produced. -/
def processAudioQueue (now : ℚ) (s : SchedulerState) : SchedulerState × List (ℚ × ℚ) :=
  if s.isProcessing then (s, [])
  else
    let s0 : SchedulerState := { s with isProcessing := true }
    let t0 := max (s0.nextPlayTime.getD now) now
    let r := drainLoop t0 s0.queue s0
    ({ r.1 with isProcessing := false }, r.2)

/-- `playAudioChunk` (part_006, lines 195–205): push the chunk onto the queue
and start the drain. -/
def playAudioChunk (now : ℚ) (s : SchedulerState) (c : AudioChunk) :
    SchedulerState × List (ℚ × ℚ) :=
  processAudioQueue now { s with queue := s.queue ++ [c] }

/-- `source.onended` (part_006, lines 159–174): remove this source from the
active set; if the set became empty, clear `isPlaying`, and if the queue is
also empty, reset the cursor and — when the outbound channel is wired
(`sendVoiceMessageRef.current`) — send `audio_playback_complete`.  Returns the
new state and whether the completion message was sent. -/
def sourceOnEnded (hasSender : Bool) (s : SchedulerState) (src : Nat) :
    SchedulerState × Bool :=
  let remaining := s.activeSources.filter (fun x => x != src)
  if remaining.isEmpty then
    if s.queue.isEmpty then
      ({ s with activeSources := remaining, isPlaying := false, nextPlayTime := none },
        hasSender)
    else
      ({ s with activeSources := remaining, isPlaying := false }, false)
  else
    ({ s with activeSources := remaining }, false)

/-- Contiguity of a (start, duration) schedule from a given instant: each
entry starts exactly where the previous one ends. -/
def contiguousFromB : ℚ → List (ℚ × ℚ) → Bool
  | _, [] => true
  | t, p :: rest => decide (p.1 = t) && contiguousFromB (t + p.2) rest

theorem chunkDuration_nonneg (c : AudioChunk) : 0 ≤ chunkDuration c := by
  unfold chunkDuration
  exact div_nonneg (Nat.cast_nonneg _) (Nat.cast_nonneg _)

theorem drainLoop_durations (q : List AudioChunk) (t : ℚ) (st : SchedulerState) :
    (drainLoop t q st).2.map Prod.snd = q.map chunkDuration := by
  induction q generalizing t st with
  | nil => rfl
  | cons c rest ih => simp [drainLoop, ih]

theorem drainLoop_contiguous (q : List AudioChunk) (t : ℚ) (st : SchedulerState) :
    contiguousFromB t (drainLoop t q st).2 = true := by
  induction q generalizing t st with
  | nil => rfl
  | cons c rest ih => simp [drainLoop, contiguousFromB, ih]

theorem drainLoop_start_ge (q : List AudioChunk) (t : ℚ) (st : SchedulerState) :
    ∀ p ∈ (drainLoop t q st).2, t ≤ p.1 := by
  induction q generalizing t st with
  | nil => intro p hp; simp [drainLoop] at hp
  | cons c rest ih =>
      intro p hp
      simp only [drainLoop, List.mem_cons] at hp
      rcases hp with h | h
      · subst h; exact le_refl t
      · calc t ≤ t + chunkDuration c := le_add_of_nonneg_right (chunkDuration_nonneg c)
          _ ≤ p.1 := ih (t + chunkDuration c) _ p h

theorem drainLoop_cursor (q : List AudioChunk) (t : ℚ) (st : SchedulerState) :
    (drainLoop t q st).1.nextPlayTime =
      if q.isEmpty then st.nextPlayTime
      else some (t + (q.map chunkDuration).sum) := by
  induction q generalizing t st with
  | nil => rfl
  | cons c rest ih =>
      simp only [drainLoop, ih, List.isEmpty_cons, List.map_cons, List.sum_cons]
      cases rest with
      | nil => simp
      | cons c2 rest2 => simp [add_assoc]

theorem drainLoop_head (q : List AudioChunk) (t : ℚ) (st : SchedulerState) :
    (drainLoop t q st).2.head?.map Prod.fst = q.head?.map (fun _ => t) := by
  cases q with
  | nil => rfl
  | cons c rest => simp [drainLoop]

/-- C4: a drain of a non-empty queue (guard clear) schedules the first chunk at
`max(cursor ?? now, now)`, every chunk for its exact duration
`samplesPerChannel / sampleRate`, consecutive chunks contiguously (no gap, no
overlap — exact in ℚ), never before `now`, the total scheduled duration equals
the sum of the chunk durations, and it leaves the cursor at the first start
plus that total. -/
theorem processAudioQueue_gapless (now : ℚ) (cur : Option ℚ) (c : AudioChunk)
    (cs : List AudioChunk) (act : List Nat) (pl : Bool) (fresh : Nat) :
    (processAudioQueue now ⟨c :: cs, cur, act, pl, false, fresh⟩).2.head?.map Prod.fst =
      some (max (cur.getD now) now) ∧
    contiguousFromB (max (cur.getD now) now)
      (processAudioQueue now ⟨c :: cs, cur, act, pl, false, fresh⟩).2 = true ∧
    (processAudioQueue now ⟨c :: cs, cur, act, pl, false, fresh⟩).2.map Prod.snd =
      (c :: cs).map chunkDuration ∧
    ((processAudioQueue now ⟨c :: cs, cur, act, pl, false, fresh⟩).2.map Prod.snd).sum =
      ((c :: cs).map chunkDuration).sum ∧
    (∀ p ∈ (processAudioQueue now ⟨c :: cs, cur, act, pl, false, fresh⟩).2,
      p.1 = max p.1 now) ∧
    (processAudioQueue now ⟨c :: cs, cur, act, pl, false, fresh⟩).1.nextPlayTime =
      some (max (cur.getD now) now + ((c :: cs).map chunkDuration).sum) := by
  refine ⟨?_, ?_, ?_, ?_, ?_, ?_⟩
  · simp [processAudioQueue, drainLoop_head]
  · simp [processAudioQueue, drainLoop_contiguous]
  · simp [processAudioQueue, drainLoop_durations]
  · simp [processAudioQueue, drainLoop_durations]
  · intro p hp
    simp only [processAudioQueue, if_neg (by simp : ¬ false = true)] at hp
    have h1 : max (cur.getD now) now ≤ p.1 := by
      exact drainLoop_start_ge _ _ _ p hp
    have h2 : now ≤ p.1 := le_trans (le_max_right _ _) h1
    exact (max_eq_left h2).symm
  · simp [processAudioQueue, drainLoop_cursor]

/-- C5: `stopAllAudio` halts and clears every active output, empties the
pending queue, resets the cursor to unset, and a chunk played after the
interruption is scheduled at the current time — not at the pre-interruption
cursor. -/
theorem stopAllAudio_interrupt (s : SchedulerState) (now : ℚ) (c : AudioChunk) :
    (stopAllAudio s).activeSources = [] ∧
    (stopAllAudio s).isPlaying = false ∧
    (stopAllAudio s).queue = [] ∧
    (stopAllAudio s).nextPlayTime = none ∧
    (playAudioChunk now (stopAllAudio s) c).2 = [(now, chunkDuration c)] := by
  refine ⟨rfl, rfl, rfl, rfl, ?_⟩
  simp [playAudioChunk, processAudioQueue, stopAllAudio, drainLoop]

/-- C9: the `audio_playback_complete` signal fires on a natural source end
exactly when no other output remains active and the queue is empty; at that
moment the cursor is reset to unset, and on any end that does not signal, the
cursor is untouched. -/
theorem audioPlaybackComplete_signal (s : SchedulerState) (src : Nat) :
    ((sourceOnEnded true s src).2 = true ↔
      s.activeSources.filter (fun x => x != src) = [] ∧ s.queue = []) ∧
    ((sourceOnEnded true s src).2 = true →
      (sourceOnEnded true s src).1.nextPlayTime = none) ∧
    ((sourceOnEnded true s src).2 = false →
      (sourceOnEnded true s src).1.nextPlayTime = s.nextPlayTime) := by
  unfold sourceOnEnded
  rcases hrem : s.activeSources.filter (fun x => x != src) with _ | ⟨r, rs⟩ <;>
    rcases hq : s.queue with _ | ⟨q, qs⟩ <;>
      simp [hrem, hq]

/-! ## Reconnecting voice WebSocket channel (voice-websocket.tsx) -/

/-- The refs and state of `useVoiceWebSocket` touched by `ws.onclose`:
`isConnected`/`isConnecting` (React state), `connectingRef`, `wsRef` (modelled
as presence), `reconnectTimeoutRef` (modelled as presence of a pending timer)
and `intentionallyDisconnectedRef`. -/
structure ChannelState where
  isConnected : Bool
  isConnecting : Bool
  connectingGuard : Bool
  wsPresent : Bool
  reconnectTimerPending : Bool
  intentionalClose : Bool
deriving DecidableEq, Repr

/-- `ws.onclose` (src/frontend/components/voice-websocket.tsx, lines 130–155):
clear the connecting guard, both connection flags and the socket ref; then
schedule one reconnect timer (a 5-second `setTimeout`) exactly when the
channel is still enabled, was not intentionally disconnected, the close code
is not the normal closure code 1000, and no reconnect timer is already
pending.  Returns the new state and whether this event scheduled a timer. -/
def wsOnClose (enabled : Bool) (code : Nat) (s : ChannelState) : ChannelState × Bool :=
  let s1 : ChannelState :=
    { s with
        connectingGuard := false
        isConnected := false
        isConnecting := false
        wsPresent := false }
  if enabled && !s.intentionalClose && code != 1000 && !s.reconnectTimerPending then
    ({ s1 with reconnectTimerPending := true }, true)
  else
    (s1, false)

/-- A run of close events delivered in order (abnormal-closure storms): the
final state and how many of the events scheduled a reconnect timer. -/
def wsOnCloseAll (enabled : Bool) (codes : List Nat) (s : ChannelState) :
    ChannelState × Nat :=
  match codes with
  | [] => (s, 0)
  | c :: rest =>
      let r1 := wsOnClose enabled c s
      let r2 := wsOnCloseAll enabled rest r1.1
      (r2.1, (if r1.2 then 1 else 0) + r2.2)

theorem wsOnClose_keeps_pending (enabled : Bool) (code : Nat) (s : ChannelState)
    (h : s.reconnectTimerPending = true) :
    (wsOnClose enabled code s).1.reconnectTimerPending = true ∧
    (wsOnClose enabled code s).2 = false := by
  simp [wsOnClose, h]

theorem wsOnCloseAll_pending (enabled : Bool) (codes : List Nat) (s : ChannelState)
    (h : s.reconnectTimerPending = true) :
    (wsOnCloseAll enabled codes s).2 = 0 ∧
    (wsOnCloseAll enabled codes s).1.reconnectTimerPending = true := by
  induction codes generalizing s with
  | nil => exact ⟨rfl, h⟩
  | cons c rest ih =>
      have h1 := wsOnClose_keeps_pending enabled c s h
      have h2 := ih (wsOnClose enabled c s).1 h1.1
      simp [wsOnCloseAll, h1.2, h2.1, h2.2]

/-- The channel state at mount: no socket, no pending timer, not intentionally
disconnected. -/
def initialChannelState : ChannelState :=
  { isConnected := false
    isConnecting := false
    connectingGuard := false
    wsPresent := false
    reconnectTimerPending := false
    intentionalClose := false }

/-- C6: a close with the normal-closure code 1000 never schedules a reconnect
(and leaves the pending-timer flag as it was); an abnormal close while the
channel is enabled, not intentionally disconnected and with no timer pending
schedules exactly one reconnect; and a whole burst of abnormal closes in quick
succession still schedules exactly one timer in total, leaving exactly one
pending. -/
theorem wsOnClose_reconnect_policy (e : Bool) (s : ChannelState) (code : Nat)
    (codes : List Nat) (hcode : code ≠ 1000)
    (hint : s.intentionalClose = false) (hpend : s.reconnectTimerPending = false) :
    (wsOnClose e 1000 s).2 = false ∧
    (wsOnClose e 1000 s).1.reconnectTimerPending = s.reconnectTimerPending ∧
    (wsOnClose true code s).2 = true ∧
    (wsOnClose true code s).1.reconnectTimerPending = true ∧
    (wsOnCloseAll true (code :: codes) s).2 = 1 ∧
    (wsOnCloseAll true (code :: codes) s).1.reconnectTimerPending = true := by
  have hone : wsOnClose true code s =
      ({ s with
          connectingGuard := false
          isConnected := false
          isConnecting := false
          wsPresent := false
          reconnectTimerPending := true }, true) := by
    simp [wsOnClose, hint, hpend, hcode]
  have hrest := wsOnCloseAll_pending true codes (wsOnClose true code s).1
    (by rw [hone])
  rw [hone] at hrest
  refine ⟨?_, ?_, ?_, ?_, ?_, ?_⟩
  · simp [wsOnClose]
  · simp [wsOnClose, hpend]
  · rw [hone]
  · rw [hone]
  · simp only [wsOnCloseAll, hone]
    simpa using hrest.1
  · simp only [wsOnCloseAll, hone]
    simpa using hrest.2

/-- C6 (witness): concrete run — a normal closure schedules nothing; an
abnormal closure (1006) from the initial state schedules one timer; a burst
of three abnormal closures (1006, 1006, 1011) schedules exactly one timer in
total. -/
theorem wsOnClose_reconnect_policy_witness :
    (wsOnClose true 1000 initialChannelState).2 = false ∧
    (wsOnClose true 1000 initialChannelState).1.reconnectTimerPending =
      initialChannelState.reconnectTimerPending ∧
    (wsOnClose true 1006 initialChannelState).2 = true ∧
    (wsOnClose true 1006 initialChannelState).1.reconnectTimerPending = true ∧
    (wsOnCloseAll true (1006 :: [1006, 1011]) initialChannelState).2 = 1 ∧
    (wsOnCloseAll true (1006 :: [1006, 1011]) initialChannelState).1.reconnectTimerPending =
      true :=
  wsOnClose_reconnect_policy true initialChannelState 1006 [1006, 1011]
    (by decide) rfl rfl

/-! ## Inbound message dispatch (voice-websocket.tsx, ws.onmessage) -/

/-- A successfully parsed inbound control-channel message, discriminated on
its `type` field as `ws.onmessage` reads it; `other` stands for any type
without a branch (ignored, not fatal). -/
inductive InboundMessage
  | ready
  | userSpeech (text : String)
  | agentResponse (text : String)
  | stepMsg (step : Nat) (narration : Option String)
      (reasoning : Option String) (tool : Option String) (screenshot : Option String)
  | errorMsg (error : String)
  | audioChunkMsg (audio : String) (sampleRate : Nat) (numChannels : Nat)
  | interruption
  | other (type : String)
deriving DecidableEq, Repr

/-- An invocation of one of the registered callbacks (read from
`callbacksRef.current` at dispatch time; all are taken as registered). -/
inductive HandlerCall
  | onUserSpeech (text : String)
  | onAgentResponse (text : String)
  | onStep (step : Nat) (narration : String)
      (reasoning : Option String) (tool : Option String) (screenshot : Option String)
  | onError (error : String)
  | onAudioChunk (audio : String) (sampleRate : Nat) (numChannels : Nat)
  | onInterruption
deriving DecidableEq, Repr

/-- `ws.onmessage` (src/frontend/components/voice-websocket.tsx, lines 89–119):
`JSON.parse(event.data)` runs inside try/catch — a payload that is not valid
JSON (parse result `none`) lands in the catch, which only logs; a parsed
message is routed on `data.type`: `ready` sets the connected flag, the other
known types call their handler (`step` defaults a missing narration to `""`),
unknown types do nothing.  Returns the connected flag after the event and the
handler invocations it made, in order. -/
def wsOnMessage (isConnected : Bool) (parsed : Option InboundMessage) :
    Bool × List HandlerCall :=
  match parsed with
  | none => (isConnected, [])
  | some .ready => (true, [])
  | some (.userSpeech t) => (isConnected, [.onUserSpeech t])
  | some (.agentResponse t) => (isConnected, [.onAgentResponse t])
  | some (.stepMsg n narr re tool shot) =>
      (isConnected, [.onStep n (narr.getD "") re tool shot])
  | some (.errorMsg e) => (isConnected, [.onError e])
  | some (.audioChunkMsg a sr nc) => (isConnected, [.onAudioChunk a sr nc])
  | some .interruption => (isConnected, [.onInterruption])
  | some (.other _) => (isConnected, [])

/-- A sequence of inbound events delivered in order: the connected flag after
all of them and the concatenated handler invocations. -/
def wsOnMessageAll (isConnected : Bool) (msgs : List (Option InboundMessage)) :
    Bool × List HandlerCall :=
  match msgs with
  | [] => (isConnected, [])
  | m :: rest =>
      let r1 := wsOnMessage isConnected m
      let r2 := wsOnMessageAll r1.1 rest
      (r2.1, r1.2 ++ r2.2)

/-- C10: an inbound payload that fails to parse invokes no handler and leaves
the connected flag unchanged, and a malformed message in front of any later
traffic changes nothing about how that traffic is dispatched. -/
theorem invalid_json_message_ignored (c : Bool) (msgs : List (Option InboundMessage)) :
    wsOnMessage c none = (c, []) ∧
    wsOnMessageAll c (none :: msgs) = wsOnMessageAll c msgs := by
  constructor
  · rfl
  · simp [wsOnMessageAll, wsOnMessage]

/-! ## Streaming proxy (src/frontend/app/api/query/route.ts, POST) -/

/-- `JSON.stringify({ type: "error", error: message })` as built in the catch
branch of the stream's start callback (string escaping of the message
elided). -/
def errorJson (message : String) : String :=
  "\x7b\"type\":\"error\",\"error\":\"" ++ message ++ "\"\x7d"

/-- The synthetic terminal event the catch branch enqueues:
`data: ${errorData}\n\n` — the same `data: `-prefixed, newline-framed shape as
relayed lines. -/
def errorFrame (message : String) : String :=
  "data: " ++ (errorJson message ++ "\n\n")

/-- One iteration of the relay loop (route.ts, lines 51–64): append the
decoded chunk to the re-assembly buffer, split on newline, hold back the
trailing fragment (`lines.pop() || ""`), and forward each complete line that
starts with `data: `, suffixed with a newline.  Returns the new buffer and
the frames enqueued downstream, in order. -/
def relayChunk (buffer chunk : String) : String × List String :=
  let lines := (buffer ++ chunk).splitOn "\n"
  let buffer2 := (lines.getLast?).getD ""
  let complete := lines.dropLast
  (buffer2, (complete.filter (fun l => l.startsWith "data: ")).map (fun l => l ++ "\n"))

/-- The relay loop over a whole sequence of upstream chunks. -/
def relayChunks (buffer : String) : List String → String × List String
  | [] => (buffer, [])
  | c :: rest =>
      let r1 := relayChunk buffer c
      let r2 := relayChunks r1.1 rest
      (r2.1, r1.2 ++ r2.2)

/-- The events that drive one proxied request: a read resolving with a chunk,
a read reporting done, a read rejecting with a non-abort error, a read
rejecting with `AbortError` (what a fetch aborted via its signal raises), and
the downstream caller disconnecting (the stream's cancel callback). -/
inductive ProxyEvent
  | chunk (data : String)
  | done
  | failure (message : String)
  | abortError
  | clientCancel
deriving DecidableEq, Repr

/-- Whether the event is a non-abort upstream failure. -/
def isFailureEvent : ProxyEvent → Bool
  | .failure _ => true
  | _ => false

/-- The observable state of one proxied request: the re-assembly buffer, the
frames enqueued downstream in order, whether `controller.close()` has run,
whether `backendAbortController.abort()` has run, and whether
`backendReader.cancel()` has been issued. -/
structure ProxyState where
  buffer : String
  writes : List String
  closed : Bool
  aborted : Bool
  readerCancelled : Bool
deriving DecidableEq, Repr

/-- One event step of the proxy (route.ts, lines 25–89).  `clientCancel` is
the stream's cancel callback: it aborts the backend fetch and cancels the
read handle unconditionally, swallowing secondary errors.  A `chunk` is
relayed by the loop body only while the stream is live (an aborted fetch's
read never resolves with data — it rejects with `AbortError`).  `done` breaks
the loop and closes.  `abortError` is the catch's `AbortError` branch: log
only, then close — nothing is written.  `failure` is the catch's other
branch: enqueue one synthetic framed error event, then close. -/
def proxyStep (s : ProxyState) : ProxyEvent → ProxyState
  | .clientCancel => { s with aborted := true, readerCancelled := true }
  | .chunk data =>
      if s.aborted || s.closed then s
      else
        let r := relayChunk s.buffer data
        { s with buffer := r.1, writes := s.writes ++ r.2 }
  | .done => if s.closed then s else { s with closed := true }
  | .abortError => if s.closed then s else { s with closed := true }
  | .failure message =>
      if s.closed then s
      else { s with writes := s.writes ++ [errorFrame message], closed := true }

/-- The state before any event: empty buffer, nothing written, stream live. -/
def initProxyState : ProxyState :=
  { buffer := ""
    writes := []
    closed := false
    aborted := false
    readerCancelled := false }

/-- A whole proxied request: the events folded over the initial state. -/
def proxyRun (events : List ProxyEvent) : ProxyState :=
  events.foldl proxyStep initProxyState

theorem proxyStep_preserves_aborted (s : ProxyState) (e : ProxyEvent)
    (h : s.aborted = true) : (proxyStep s e).aborted = true := by
  cases e <;> simp [proxyStep, h] <;> split <;> simp [h]

theorem proxyStep_no_write_after_abort (s : ProxyState) (e : ProxyEvent)
    (h : s.aborted = true) (hf : isFailureEvent e = false) :
    (proxyStep s e).writes = s.writes := by
  cases e <;> simp_all [proxyStep, isFailureEvent] <;> split <;> simp

theorem proxyFold_after_abort (es : List ProxyEvent) (s : ProxyState)
    (h : s.aborted = true) (hf : ∀ e ∈ es, isFailureEvent e = false) :
    (es.foldl proxyStep s).writes = s.writes ∧
    (es.foldl proxyStep s).aborted = true := by
  induction es generalizing s with
  | nil => exact ⟨rfl, h⟩
  | cons e rest ih =>
      have he := hf e (List.mem_cons_self e rest)
      have hrest : ∀ x ∈ rest, isFailureEvent x = false :=
        fun x hx => hf x (List.mem_cons_of_mem e hx)
      have h1 := proxyStep_preserves_aborted s e h
      have h2 := proxyStep_no_write_after_abort s e h he
      have h3 := ih (proxyStep s e) h1 hrest
      exact ⟨h2 ▸ h3.1, h3.2⟩

theorem proxyFold_chunks (cs : List String) (s : ProxyState)
    (hc : s.closed = false) (ha : s.aborted = false) :
    (cs.map ProxyEvent.chunk).foldl proxyStep s =
      { s with
          buffer := (relayChunks s.buffer cs).1
          writes := s.writes ++ (relayChunks s.buffer cs).2 } := by
  induction cs generalizing s with
  | nil => simp [relayChunks]
  | cons c rest ih =>
      have hstep : proxyStep s (ProxyEvent.chunk c) =
          { s with
              buffer := (relayChunk s.buffer c).1
              writes := s.writes ++ (relayChunk s.buffer c).2 } := by
        simp [proxyStep, hc, ha]
      simp only [List.map_cons, List.foldl_cons, hstep]
      rw [ih _ (by simp [hc]) (by simp [ha])]
      simp [relayChunks, List.append_assoc]

/-- C7: when the downstream caller disconnects mid-relay, the cancel callback
immediately signals the upstream abort controller and cancels the read
handle — whatever state the relay loop was in — and no event that can follow
an aborted fetch (its read rejects with `AbortError`, never with data or
another error) adds a downstream write: the writes after the whole run equal
the writes at the moment of cancellation. -/
theorem proxy_cancel_propagation (es1 es2 : List ProxyEvent)
    (hf : ∀ e ∈ es2, isFailureEvent e = false) :
    (proxyRun (es1 ++ [ProxyEvent.clientCancel])).aborted = true ∧
    (proxyRun (es1 ++ [ProxyEvent.clientCancel])).readerCancelled = true ∧
    (proxyRun (es1 ++ ProxyEvent.clientCancel :: es2)).aborted = true ∧
    (proxyRun (es1 ++ ProxyEvent.clientCancel :: es2)).writes =
      (proxyRun (es1 ++ [ProxyEvent.clientCancel])).writes := by
  have hmid : proxyRun (es1 ++ [ProxyEvent.clientCancel]) =
      proxyStep (es1.foldl proxyStep initProxyState) ProxyEvent.clientCancel := by
    simp [proxyRun, List.foldl_append]
  have hmidAborted :
      (proxyRun (es1 ++ [ProxyEvent.clientCancel])).aborted = true := by
    rw [hmid]; rfl
  have hmidReader :
      (proxyRun (es1 ++ [ProxyEvent.clientCancel])).readerCancelled = true := by
    rw [hmid]; rfl
  have hfull : proxyRun (es1 ++ ProxyEvent.clientCancel :: es2) =
      es2.foldl proxyStep (proxyRun (es1 ++ [ProxyEvent.clientCancel])) := by
    simp [proxyRun, List.foldl_append]
  have htail := proxyFold_after_abort es2
    (proxyRun (es1 ++ [ProxyEvent.clientCancel])) hmidAborted hf
  refine ⟨hmidAborted, hmidReader, ?_, ?_⟩
  · rw [hfull]; exact htail.2
  · rw [hfull]; exact htail.1

/-- C7 (witness): a relay that has forwarded one framed line is cancelled;
the pending read then rejects with `AbortError`: the abort controller is
signalled, the reader cancelled, and no write follows the cancellation. -/
theorem proxy_cancel_propagation_witness :
    (proxyRun ([ProxyEvent.chunk "data: a\n"] ++ [ProxyEvent.clientCancel])).aborted = true ∧
    (proxyRun ([ProxyEvent.chunk "data: a\n"] ++ [ProxyEvent.clientCancel])).readerCancelled =
      true ∧
    (proxyRun ([ProxyEvent.chunk "data: a\n"] ++
      ProxyEvent.clientCancel :: [ProxyEvent.abortError])).aborted = true ∧
    (proxyRun ([ProxyEvent.chunk "data: a\n"] ++
      ProxyEvent.clientCancel :: [ProxyEvent.abortError])).writes =
      (proxyRun ([ProxyEvent.chunk "data: a\n"] ++ [ProxyEvent.clientCancel])).writes :=
  proxy_cancel_propagation [ProxyEvent.chunk "data: a\n"] [ProxyEvent.abortError]
    (by decide)

/-- C8: an upstream run that fails with a non-cancellation error after
delivering some chunks produces downstream exactly the relayed frames
followed by one synthetic framed error event, and then the stream is closed —
a terminal signal, never a silent hang; the error frame carries the same
`data: `-prefixed, newline-terminated shape as relayed lines. -/
theorem proxy_upstream_failure_terminal (cs : List String) (message : String) :
    (proxyRun (cs.map ProxyEvent.chunk ++ [ProxyEvent.failure message])).writes =
      (relayChunks "" cs).2 ++ [errorFrame message] ∧
    (proxyRun (cs.map ProxyEvent.chunk ++ [ProxyEvent.failure message])).closed = true ∧
    (proxyRun (cs.map ProxyEvent.chunk ++ [ProxyEvent.failure message])).aborted = false ∧
    errorFrame message = "data: " ++ (errorJson message ++ "\n\n") := by
  have hchunks := proxyFold_chunks cs initProxyState rfl rfl
  have hrun : proxyRun (cs.map ProxyEvent.chunk ++ [ProxyEvent.failure message]) =
      proxyStep ((cs.map ProxyEvent.chunk).foldl proxyStep initProxyState)
        (ProxyEvent.failure message) := by
    simp [proxyRun, List.foldl_append]
  rw [hrun, hchunks]
  refine ⟨?_, ?_, ?_, rfl⟩ <;> simp [proxyStep, initProxyState]
